import Mathlib

/-!
Shallow embedding of the semantic-index configuration engine of the
Roo-Code fork under verification:

* `RefIndex`   — `ReferenceIndexConfigManager`
               (src/services/reference-index/config-manager.ts)
* `Mem0Cfg`    — `Mem0ConfigManager` and the API-key validator
               (src/services/mem0/config.ts, errors.ts)
* `Qdrant`     — `Mem0QdrantClient`, the local vector-store adapter
               (src/services/mem0/qdrant-client.ts)
* `Mem0Client` — the dual-mode client operations
               (src/services/mem0/client.ts)

TypeScript values of type `T | undefined` are embedded as `Option T`;
JavaScript string truthiness (`""` and `undefined` are falsy) is embedded
by `truthyOptS`.  Asynchronous methods are embedded as pure functions over
an explicit environment (the outcomes of network / vector-store calls) and
return, besides their value, the list of external calls they issued and
the list of `console.error` log lines they produced (a two-argument
`console.error(a, err)` is flattened to the single string `a ++ " " ++ msg`).
-/

/-- JavaScript truthiness of a `string | undefined` value:
`undefined` and `""` are falsy, every other string is truthy. -/
def truthyOptS : Option String → Bool
  | none => false
  | some s => !s.isEmpty

theorem truthyOptS_iff (o : Option String) :
    truthyOptS o = true ↔ ∃ s, o = some s ∧ s ≠ "" := by
  cases o with
  | none => simp [truthyOptS]
  | some s =>
    simp only [truthyOptS, Option.some.injEq, Bool.not_eq_true']
    constructor
    · intro h
      refine ⟨s, rfl, fun hs => ?_⟩
      rw [← String.isEmpty_iff] at hs
      simp [hs] at h
    · rintro ⟨t, rfl, ht⟩
      cases hse : s.isEmpty with
      | true => exact absurd ((String.isEmpty_iff s).mp hse) ht
      | false => rfl

namespace RefIndex

/-- Embedding of the `ApiHandlerOptions` fields read by
`ReferenceIndexConfigManager` (`openAiOptions` uses `openAiNativeApiKey`,
`ollamaOptions` uses `ollamaBaseUrl`). -/
structure ApiHandlerOptions where
  openAiNativeApiKey : Option String := none
  ollamaBaseUrl : Option String := none
  deriving Repr, DecidableEq

/-- `{ baseUrl: string; apiKey: string; modelDimension?: number }`. -/
structure OpenAiCompatibleOptions where
  baseUrl : String
  apiKey : String
  modelDimension : Option Nat := none
  deriving Repr, DecidableEq

/-- `{ apiKey: string }`. -/
structure GeminiOptions where
  apiKey : String
  deriving Repr, DecidableEq

/-- The private instance fields of `ReferenceIndexConfigManager`
(config-manager.ts lines 13-24).  `embedderProvider` is kept as a raw
string so that provider values outside the four supported variants can be
talked about; the loader normalises it to one of the four.  The
`searchMinScore` / `searchMaxResults` / numeric score fields are not read
by any function embedded here and are omitted. -/
structure ManagerState where
  isEnabled : Bool
  embedderProvider : String
  modelId : Option String
  openAiOptions : Option ApiHandlerOptions
  ollamaOptions : Option ApiHandlerOptions
  openAiCompatibleOptions : Option OpenAiCompatibleOptions
  geminiOptions : Option GeminiOptions
  qdrantUrl : Option String
  qdrantApiKey : Option String
  rootPath : Option String
  deriving Repr, DecidableEq

/-- `isConfigured()` (config-manager.ts lines 181-204): per-provider
truthiness checks over the required fields, `false` for any provider
outside the four variants. -/
def isConfigured (st : ManagerState) : Bool :=
  if st.embedderProvider == "openai" then
    truthyOptS (st.openAiOptions.bind (fun o => o.openAiNativeApiKey)) && truthyOptS st.qdrantUrl
  else if st.embedderProvider == "ollama" then
    truthyOptS (st.ollamaOptions.bind (fun o => o.ollamaBaseUrl)) && truthyOptS st.qdrantUrl
  else if st.embedderProvider == "openai-compatible" then
    truthyOptS (st.openAiCompatibleOptions.map (fun o => o.baseUrl)) &&
      truthyOptS (st.openAiCompatibleOptions.map (fun o => o.apiKey)) &&
      truthyOptS st.qdrantUrl
  else if st.embedderProvider == "gemini" then
    truthyOptS (st.geminiOptions.map (fun o => o.apiKey)) && truthyOptS st.qdrantUrl
  else
    false

/-- `PreviousConfigSnapshot` as captured by `loadConfiguration`
(config-manager.ts lines 134-148). -/
structure PreviousConfigSnapshot where
  enabled : Bool
  configured : Bool
  embedderProvider : String
  modelId : Option String
  openAiKey : String
  ollamaBaseUrl : String
  openAiCompatibleBaseUrl : String
  openAiCompatibleApiKey : String
  openAiCompatibleModelDimension : Option Nat
  geminiApiKey : String
  qdrantUrl : String
  qdrantApiKey : String
  rootPath : String
  deriving Repr, DecidableEq

/-- The snapshot-capture step of `loadConfiguration` (config-manager.ts
lines 134-148): each `?? ""` of the source is `Option.getD _ ""`;
`modelId` and `openAiCompatibleOptions?.modelDimension` are carried over
without a default, exactly as in the source. -/
def captureSnapshot (st : ManagerState) : PreviousConfigSnapshot :=
  { enabled := st.isEnabled
    configured := isConfigured st
    embedderProvider := st.embedderProvider
    modelId := st.modelId
    openAiKey := (st.openAiOptions.bind (fun o => o.openAiNativeApiKey)).getD ""
    ollamaBaseUrl := (st.ollamaOptions.bind (fun o => o.ollamaBaseUrl)).getD ""
    openAiCompatibleBaseUrl := (st.openAiCompatibleOptions.map (fun o => o.baseUrl)).getD ""
    openAiCompatibleApiKey := (st.openAiCompatibleOptions.map (fun o => o.apiKey)).getD ""
    openAiCompatibleModelDimension := st.openAiCompatibleOptions.bind (fun o => o.modelDimension)
    geminiApiKey := (st.geminiOptions.map (fun o => o.apiKey)).getD ""
    qdrantUrl := st.qdrantUrl.getD ""
    qdrantApiKey := st.qdrantApiKey.getD ""
    rootPath := st.rootPath.getD "" }

/-- `this.openAiOptions?.openAiNativeApiKey ?? ""` (line 261). -/
def currentOpenAiKey (st : ManagerState) : String :=
  (st.openAiOptions.bind (fun o => o.openAiNativeApiKey)).getD ""

/-- `this.ollamaOptions?.ollamaBaseUrl ?? ""` (line 262). -/
def currentOllamaBaseUrl (st : ManagerState) : String :=
  (st.ollamaOptions.bind (fun o => o.ollamaBaseUrl)).getD ""

/-- `this.openAiCompatibleOptions?.baseUrl ?? ""` (line 263). -/
def currentOpenAiCompatibleBaseUrl (st : ManagerState) : String :=
  (st.openAiCompatibleOptions.map (fun o => o.baseUrl)).getD ""

/-- `this.openAiCompatibleOptions?.apiKey ?? ""` (line 264). -/
def currentOpenAiCompatibleApiKey (st : ManagerState) : String :=
  (st.openAiCompatibleOptions.map (fun o => o.apiKey)).getD ""

/-- `this.openAiCompatibleOptions?.modelDimension` (line 265). -/
def currentOpenAiCompatibleModelDimension (st : ManagerState) : Option Nat :=
  st.openAiCompatibleOptions.bind (fun o => o.modelDimension)

/-- `this.geminiOptions?.apiKey ?? ""` (line 266). -/
def currentGeminiApiKey (st : ManagerState) : String :=
  (st.geminiOptions.map (fun o => o.apiKey)).getD ""

/-- `this.qdrantUrl ?? ""` (line 267). -/
def currentQdrantUrl (st : ManagerState) : String :=
  st.qdrantUrl.getD ""

/-- `this.qdrantApiKey ?? ""` (line 268). -/
def currentQdrantApiKey (st : ManagerState) : String :=
  st.qdrantApiKey.getD ""

/-- `_hasVectorDimensionChanged` (config-manager.ts lines 308-329).
The provider catalog `shared/embeddingModels.ts` is not part of the
sources under verification, so `getModelDimension` (provider → model id →
dimension, `none` when the pair is absent from the catalog) and
`getDefaultModelId` are taken as parameters; nothing below depends on
their concrete contents. -/
def hasVectorDimensionChanged (getModelDimension : String → String → Option Nat)
    (getDefaultModelId : String → String) (st : ManagerState)
    (prevProvider : String) (prevModelId : Option String) : Bool :=
  -- currentModelId := this.modelId ?? getDefaultModelId(currentProvider)
  -- resolvedPrevModelId := prevModelId ?? getDefaultModelId(prevProvider)
  if prevProvider == st.embedderProvider &&
      prevModelId.getD (getDefaultModelId prevProvider) ==
        st.modelId.getD (getDefaultModelId st.embedderProvider) then
    false
  else
    match getModelDimension prevProvider (prevModelId.getD (getDefaultModelId prevProvider)),
          getModelDimension st.embedderProvider
            (st.modelId.getD (getDefaultModelId st.embedderProvider)) with
    | some prevDimension, some currentDimension => prevDimension != currentDimension
    | _, _ => true

/-- `doesConfigChangeRequireRestart` (config-manager.ts lines 222-303).
The `prev?.x ?? d` null-guards of the source are identities here because
`prev` is a materialised snapshot. -/
def doesConfigChangeRequireRestart (getModelDimension : String → String → Option Nat)
    (getDefaultModelId : String → String) (st : ManagerState)
    (prev : PreviousConfigSnapshot) : Bool :=
  -- 1. Transition from disabled/unconfigured to enabled+configured
  if (!prev.enabled || !prev.configured) && st.isEnabled && isConfigured st then
    true
  -- 2. If was disabled and still is, no restart needed
  else if !prev.enabled && !st.isEnabled then
    false
  -- 3. If wasn't ready before and isn't ready now, no restart needed
  else if !prev.configured && !isConfigured st then
    false
  -- 4. CRITICAL CHANGES - Always restart for these
  else if st.isEnabled || prev.enabled then
    if prev.embedderProvider != st.embedderProvider then
      true
    else if prev.openAiKey != currentOpenAiKey st then
      true
    else if prev.ollamaBaseUrl != currentOllamaBaseUrl st then
      true
    else if prev.openAiCompatibleBaseUrl != currentOpenAiCompatibleBaseUrl st ||
        prev.openAiCompatibleApiKey != currentOpenAiCompatibleApiKey st then
      true
    else if (st.embedderProvider == "openai-compatible" ||
          prev.embedderProvider == "openai-compatible") &&
        prev.openAiCompatibleModelDimension != currentOpenAiCompatibleModelDimension st then
      true
    else if prev.qdrantUrl != currentQdrantUrl st ||
        prev.qdrantApiKey != currentQdrantApiKey st then
      true
    else
      hasVectorDimensionChanged getModelDimension getDefaultModelId st
        prev.embedderProvider prev.modelId
  else
    false

end RefIndex

/-- A state used to exercise the both-disabled branch of the restart
decision: disabled, yet with every other field different from
`prevSnapshotC2` below. -/
def stateC2 : RefIndex.ManagerState :=
  { isEnabled := false
    embedderProvider := "ollama"
    modelId := some "nomic-embed-text"
    openAiOptions := some { openAiNativeApiKey := some "sk-new" }
    ollamaOptions := some { ollamaBaseUrl := some "http://ollama:11434" }
    openAiCompatibleOptions := some { baseUrl := "http://compat", apiKey := "ck", modelDimension := some 4096 }
    geminiOptions := some { apiKey := "gk" }
    qdrantUrl := some "http://qdrant-b:6333"
    qdrantApiKey := some "qk-b"
    rootPath := some "/b" }

/-- A previous snapshot that is disabled and differs from `stateC2` in
provider, keys, URLs, model id and dimension. -/
def prevSnapshotC2 : RefIndex.PreviousConfigSnapshot :=
  { enabled := false
    configured := true
    embedderProvider := "openai"
    modelId := some "text-embedding-3-large"
    openAiKey := "sk-old"
    ollamaBaseUrl := ""
    openAiCompatibleBaseUrl := "http://old-compat"
    openAiCompatibleApiKey := "old-ck"
    openAiCompatibleModelDimension := some 1536
    geminiApiKey := ""
    qdrantUrl := "http://qdrant-a:6333"
    qdrantApiKey := "qk-a"
    rootPath := "/a" }

/-- C2: for every (prev, next) pair in which the enabled flag is false on
both sides, `doesConfigChangeRequireRestart` returns false, whatever the
providers, keys, URLs, model ids or dimensions are (rule 2 of the
decision table fires before any field comparison). -/
theorem c2_both_disabled_no_restart
    (getModelDimension : String → String → Option Nat) (getDefaultModelId : String → String)
    (st : RefIndex.ManagerState) (prev : RefIndex.PreviousConfigSnapshot)
    (hprev : prev.enabled = false) (hcur : st.isEnabled = false) :
    RefIndex.doesConfigChangeRequireRestart getModelDimension getDefaultModelId st prev = false := by
  unfold RefIndex.doesConfigChangeRequireRestart
  simp [hprev, hcur]

/-- Witness for C2 at a concrete pair of snapshots that differ in every
compared field while being disabled on both sides. -/
theorem c2_both_disabled_no_restart_witness :
    RefIndex.doesConfigChangeRequireRestart (fun _ _ => some 1536) (fun _ => "default")
      stateC2 prevSnapshotC2 = false :=
  c2_both_disabled_no_restart (fun _ _ => some 1536) (fun _ => "default")
    stateC2 prevSnapshotC2 rfl rfl

/-- The nonempty-`Option String` requirement used by the C5
characterisation: the field is present and not the empty string. -/
def presentNonempty (o : Option String) : Prop :=
  ∃ s, o = some s ∧ s ≠ ""

/-- C5: `isConfigured` returns true exactly when the provider-specific
required fields are all non-empty — OpenAI: OpenAI API key + Qdrant URL;
Ollama: Ollama base URL + Qdrant URL; OpenAI-compatible: base URL + API
key + Qdrant URL; Gemini: Gemini API key + Qdrant URL — and returns false
for every provider value outside those four variants (no disjunct of the
right-hand side can hold then). -/
theorem c5_isConfigured_characterisation (st : RefIndex.ManagerState) :
    RefIndex.isConfigured st = true ↔
      ((st.embedderProvider = "openai" ∧
          presentNonempty (st.openAiOptions.bind (fun o => o.openAiNativeApiKey)) ∧
          presentNonempty st.qdrantUrl) ∨
        (st.embedderProvider = "ollama" ∧
          presentNonempty (st.ollamaOptions.bind (fun o => o.ollamaBaseUrl)) ∧
          presentNonempty st.qdrantUrl) ∨
        (st.embedderProvider = "openai-compatible" ∧
          presentNonempty (st.openAiCompatibleOptions.map (fun o => o.baseUrl)) ∧
          presentNonempty (st.openAiCompatibleOptions.map (fun o => o.apiKey)) ∧
          presentNonempty st.qdrantUrl) ∨
        (st.embedderProvider = "gemini" ∧
          presentNonempty (st.geminiOptions.map (fun o => o.apiKey)) ∧
          presentNonempty st.qdrantUrl)) := by
  unfold RefIndex.isConfigured
  by_cases h1 : st.embedderProvider = "openai"
  · simp [h1, presentNonempty, truthyOptS_iff]
  · by_cases h2 : st.embedderProvider = "ollama"
    · simp [h2, presentNonempty, truthyOptS_iff]
    · by_cases h3 : st.embedderProvider = "openai-compatible"
      · simp [h3, presentNonempty, truthyOptS_iff, and_assoc]
      · by_cases h4 : st.embedderProvider = "gemini"
        · simp [h4, presentNonempty, truthyOptS_iff]
        · simp [h1, h2, h3, h4]

/-- A fully configured gemini state used as the C5 witness input. -/
def stateC5 : RefIndex.ManagerState :=
  { isEnabled := true
    embedderProvider := "gemini"
    modelId := none
    openAiOptions := some { openAiNativeApiKey := none }
    ollamaOptions := some { ollamaBaseUrl := some "" }
    openAiCompatibleOptions := none
    geminiOptions := some { apiKey := "gemini-key" }
    qdrantUrl := some "http://localhost:6333"
    qdrantApiKey := some ""
    rootPath := some "" }

/-- Witness for C5: the characterisation applied at a concrete
gemini-configured state. -/
theorem c5_isConfigured_characterisation_witness :
    RefIndex.isConfigured stateC5 = true :=
  (c5_isConfigured_characterisation stateC5).mpr
    (Or.inr (Or.inr (Or.inr ⟨rfl, ⟨"gemini-key", rfl, by decide⟩,
      ⟨"http://localhost:6333", rfl, by decide⟩⟩)))

/-- A provider catalog with no entries at all: every (provider, model id)
pair is absent, so no dimension can be resolved. -/
def emptyCatalog : String → String → Option Nat := fun _ _ => none

/-- A default-model-id resolver for the catalog-free scenarios. -/
def anyDefaultModelId : String → String := fun _ => "default-model"

/-- When the two sides are not identical as (provider, effective model id)
pairs and either side's dimension lookup fails, `_hasVectorDimensionChanged`
fails safe and reports a change. -/
theorem hasVectorDimensionChanged_of_unresolved
    (dims : String → String → Option Nat) (defs : String → String)
    (st : RefIndex.ManagerState) (prevProvider : String) (prevModelId : Option String)
    (hne : ¬(prevProvider = st.embedderProvider ∧
        prevModelId.getD (defs prevProvider) = st.modelId.getD (defs st.embedderProvider)))
    (hnone : dims prevProvider (prevModelId.getD (defs prevProvider)) = none ∨
        dims st.embedderProvider (st.modelId.getD (defs st.embedderProvider)) = none) :
    RefIndex.hasVectorDimensionChanged dims defs st prevProvider prevModelId = true := by
  unfold RefIndex.hasVectorDimensionChanged
  have hguard : ¬((prevProvider == st.embedderProvider &&
      (prevModelId.getD (defs prevProvider) ==
        st.modelId.getD (defs st.embedderProvider))) = true) := by
    simp only [Bool.and_eq_true, beq_iff_eq]
    exact fun h => hne ⟨h.1, h.2⟩
  rw [if_neg hguard]
  rcases hnone with h | h
  · rw [h]
  · rw [h]
    cases dims prevProvider (prevModelId.getD (defs prevProvider)) <;> rfl

/-- C1 (amended): under rules 1-3 not applying and the feature enabled in
either snapshot, if either side's (provider, effective model id) pair has
no dimension in the catalog then `doesConfigChangeRequireRestart` returns
true — EXCEPT when the provider and the effective model id are identical
on both sides: `_hasVectorDimensionChanged` then short-circuits to "no
change" without consulting the catalog, and (all other compared fields
being equal) the function returns false. -/
theorem c1_unresolved_dimension_restart_amended
    (dims : String → String → Option Nat) (defs : String → String)
    (st : RefIndex.ManagerState) (prev : RefIndex.PreviousConfigSnapshot)
    (h1 : ((!prev.enabled || !prev.configured) && st.isEnabled && RefIndex.isConfigured st) = false)
    (h2 : (!prev.enabled && !st.isEnabled) = false)
    (h3 : (!prev.configured && !RefIndex.isConfigured st) = false)
    (hen : (st.isEnabled || prev.enabled) = true)
    (hnone : dims prev.embedderProvider (prev.modelId.getD (defs prev.embedderProvider)) = none ∨
        dims st.embedderProvider (st.modelId.getD (defs st.embedderProvider)) = none) :
    (¬(prev.embedderProvider = st.embedderProvider ∧
        prev.modelId.getD (defs prev.embedderProvider) =
          st.modelId.getD (defs st.embedderProvider)) →
      RefIndex.doesConfigChangeRequireRestart dims defs st prev = true) ∧
    (prev.embedderProvider = st.embedderProvider →
      prev.modelId.getD (defs prev.embedderProvider) =
        st.modelId.getD (defs st.embedderProvider) →
      prev.openAiKey = RefIndex.currentOpenAiKey st →
      prev.ollamaBaseUrl = RefIndex.currentOllamaBaseUrl st →
      prev.openAiCompatibleBaseUrl = RefIndex.currentOpenAiCompatibleBaseUrl st →
      prev.openAiCompatibleApiKey = RefIndex.currentOpenAiCompatibleApiKey st →
      prev.openAiCompatibleModelDimension = RefIndex.currentOpenAiCompatibleModelDimension st →
      prev.qdrantUrl = RefIndex.currentQdrantUrl st →
      prev.qdrantApiKey = RefIndex.currentQdrantApiKey st →
      RefIndex.doesConfigChangeRequireRestart dims defs st prev = false) := by
  constructor
  · intro hne
    have hval := hasVectorDimensionChanged_of_unresolved dims defs st prev.embedderProvider
      prev.modelId hne hnone
    unfold RefIndex.doesConfigChangeRequireRestart
    rw [h1, if_neg Bool.false_ne_true, h2, if_neg Bool.false_ne_true, h3,
      if_neg Bool.false_ne_true, hen, if_pos rfl]
    repeat' split
    all_goals first
      | rfl
      | exact hval
  · intro hp hmid hk hol hcb hck hcd hqu hqk
    rw [hp] at hmid
    unfold RefIndex.doesConfigChangeRequireRestart
    rw [h1, if_neg Bool.false_ne_true, h2, if_neg Bool.false_ne_true, h3,
      if_neg Bool.false_ne_true, hen, if_pos rfl]
    rw [hp, hk, hol, hcb, hck, hcd, hqu, hqk]
    simp [RefIndex.hasVectorDimensionChanged, hmid]

/-- The C1 counterexample state: enabled, configured for OpenAI, with an
explicit model id that no catalog entry resolves. -/
def stateC1 : RefIndex.ManagerState :=
  { isEnabled := true
    embedderProvider := "openai"
    modelId := some "uncatalogued-model"
    openAiOptions := some { openAiNativeApiKey := some "sk-test" }
    ollamaOptions := some { ollamaBaseUrl := some "" }
    openAiCompatibleOptions := none
    geminiOptions := none
    qdrantUrl := some "http://localhost:6333"
    qdrantApiKey := some ""
    rootPath := some "" }

/-- The previous snapshot of the C1 counterexample: exactly the snapshot
`loadConfiguration` captures from `stateC1`, so both sides are identical. -/
def prevSnapshotC1 : RefIndex.PreviousConfigSnapshot :=
  RefIndex.captureSnapshot stateC1

/-- C1 counterexample: with the (provider, effective model id) pair
identical on both sides and absent from the catalog, rules 1-3
inapplicable and the feature enabled, `doesConfigChangeRequireRestart`
returns false — not true as the claim states. -/
theorem c1_unresolved_dimension_counterexample :
    ((!prevSnapshotC1.enabled || !prevSnapshotC1.configured) && stateC1.isEnabled &&
        RefIndex.isConfigured stateC1) = false ∧
    (!prevSnapshotC1.enabled && !stateC1.isEnabled) = false ∧
    (!prevSnapshotC1.configured && !RefIndex.isConfigured stateC1) = false ∧
    (stateC1.isEnabled || prevSnapshotC1.enabled) = true ∧
    prevSnapshotC1.embedderProvider = stateC1.embedderProvider ∧
    prevSnapshotC1.modelId.getD (anyDefaultModelId prevSnapshotC1.embedderProvider) =
      stateC1.modelId.getD (anyDefaultModelId stateC1.embedderProvider) ∧
    emptyCatalog prevSnapshotC1.embedderProvider
      (prevSnapshotC1.modelId.getD (anyDefaultModelId prevSnapshotC1.embedderProvider)) = none ∧
    emptyCatalog stateC1.embedderProvider
      (stateC1.modelId.getD (anyDefaultModelId stateC1.embedderProvider)) = none ∧
    RefIndex.doesConfigChangeRequireRestart emptyCatalog anyDefaultModelId
      stateC1 prevSnapshotC1 = false := by
  refine ⟨rfl, rfl, rfl, rfl, rfl, rfl, rfl, rfl, rfl⟩

/-- The witness state for the amended C1: same provider as its previous
snapshot but a different uncatalogued model id. -/
def stateC1w : RefIndex.ManagerState :=
  { stateC1 with modelId := some "other-uncatalogued-model" }

/-- Witness for the amended C1: an uncatalogued model-id change on the
same provider makes the restart decision true. -/
theorem c1_unresolved_dimension_restart_amended_witness :
    RefIndex.doesConfigChangeRequireRestart emptyCatalog anyDefaultModelId
      stateC1w prevSnapshotC1 = true :=
  (c1_unresolved_dimension_restart_amended emptyCatalog anyDefaultModelId
      stateC1w prevSnapshotC1 rfl rfl rfl rfl (Or.inl rfl)).1
    (by decide)

/-- The C9 counterexample state: feature off, nothing set, and in
particular no explicit model id and no openai-compatible options. -/
def stateC9 : RefIndex.ManagerState :=
  { isEnabled := false
    embedderProvider := "openai"
    modelId := none
    openAiOptions := none
    ollamaOptions := none
    openAiCompatibleOptions := none
    geminiOptions := none
    qdrantUrl := none
    qdrantApiKey := none
    rootPath := none }

/-- C9 counterexample: the snapshot captured by `loadConfiguration` does
NOT default every field — `modelId` and `openAiCompatibleModelDimension`
are carried over as absent values instead of an empty-string/false
sentinel. -/
theorem c9_snapshot_defaulting_counterexample :
    (RefIndex.captureSnapshot stateC9).modelId = none ∧
    (RefIndex.captureSnapshot stateC9).openAiCompatibleModelDimension = none :=
  ⟨rfl, rfl⟩

/-- C9 (amended): every string field of the captured snapshot other than
`modelId` is defaulted to `""` when the underlying value is absent (and
`enabled` / `configured` are total booleans by construction); `modelId`
and `openAiCompatibleModelDimension` alone are carried through as
optional values. -/
theorem c9_snapshot_string_fields_defaulted_amended (st : RefIndex.ManagerState) :
    (st.openAiOptions.bind (fun o => o.openAiNativeApiKey) = none →
      (RefIndex.captureSnapshot st).openAiKey = "") ∧
    (st.ollamaOptions.bind (fun o => o.ollamaBaseUrl) = none →
      (RefIndex.captureSnapshot st).ollamaBaseUrl = "") ∧
    (st.openAiCompatibleOptions = none →
      (RefIndex.captureSnapshot st).openAiCompatibleBaseUrl = "" ∧
      (RefIndex.captureSnapshot st).openAiCompatibleApiKey = "") ∧
    (st.geminiOptions = none → (RefIndex.captureSnapshot st).geminiApiKey = "") ∧
    (st.qdrantUrl = none → (RefIndex.captureSnapshot st).qdrantUrl = "") ∧
    (st.qdrantApiKey = none → (RefIndex.captureSnapshot st).qdrantApiKey = "") ∧
    (st.rootPath = none → (RefIndex.captureSnapshot st).rootPath = "") := by
  refine ⟨?_, ?_, ?_, ?_, ?_, ?_, ?_⟩ <;> intro h <;>
    simp [RefIndex.captureSnapshot, h]

/-- Witness for the amended C9 at the all-absent state. -/
theorem c9_snapshot_string_fields_defaulted_amended_witness :
    (RefIndex.captureSnapshot stateC9).openAiKey = "" ∧
    (RefIndex.captureSnapshot stateC9).ollamaBaseUrl = "" ∧
    (RefIndex.captureSnapshot stateC9).openAiCompatibleBaseUrl = "" ∧
    (RefIndex.captureSnapshot stateC9).openAiCompatibleApiKey = "" ∧
    (RefIndex.captureSnapshot stateC9).geminiApiKey = "" ∧
    (RefIndex.captureSnapshot stateC9).qdrantUrl = "" ∧
    (RefIndex.captureSnapshot stateC9).qdrantApiKey = "" ∧
    (RefIndex.captureSnapshot stateC9).rootPath = "" :=
  ⟨(c9_snapshot_string_fields_defaulted_amended stateC9).1 rfl,
    (c9_snapshot_string_fields_defaulted_amended stateC9).2.1 rfl,
    ((c9_snapshot_string_fields_defaulted_amended stateC9).2.2.1 rfl).1,
    ((c9_snapshot_string_fields_defaulted_amended stateC9).2.2.1 rfl).2,
    (c9_snapshot_string_fields_defaulted_amended stateC9).2.2.2.1 rfl,
    (c9_snapshot_string_fields_defaulted_amended stateC9).2.2.2.2.1 rfl,
    (c9_snapshot_string_fields_defaulted_amended stateC9).2.2.2.2.2.1 rfl,
    (c9_snapshot_string_fields_defaulted_amended stateC9).2.2.2.2.2.2 rfl⟩

namespace Mem0Cfg

/-- `Mem0Config` (config.ts lines 8-14).  `mode` is kept as the raw string
of the `"local" | "hosted"` union. -/
structure Mem0Config where
  enabled : Bool
  mode : String
  baseUrl : Option String
  apiKey : Option String
  qdrantCollection : Option String
  deriving Repr, DecidableEq

/-- `DEFAULT_CONFIG` (config.ts lines 33-37). -/
def DEFAULT_CONFIG : Mem0Config :=
  { enabled := false
    mode := "local"
    baseUrl := some "http://localhost:4321"
    apiKey := none
    qdrantCollection := none }

/-- A `Partial<Mem0Config>` updates object.  The outer `Option` is key
presence in the object; for the optional string fields the inner `Option`
distinguishes a present-but-`undefined` value (`some none`) from a string
value, because `{...config, ...updates}` copies a present `undefined`
while `updates.apiKey !== undefined` does not see it. -/
structure ConfigUpdates where
  enabled : Option Bool := none
  mode : Option String := none
  baseUrl : Option (Option String) := none
  apiKey : Option (Option String) := none
  qdrantCollection : Option (Option String) := none
  deriving Repr, DecidableEq

/-- The object spread `{ ...this.config, ...updates }` of
`updateConfig` (config.ts line 85). -/
def spreadConfig (c : Mem0Config) (u : ConfigUpdates) : Mem0Config :=
  { enabled := u.enabled.getD c.enabled
    mode := u.mode.getD c.mode
    baseUrl := u.baseUrl.getD c.baseUrl
    apiKey := u.apiKey.getD c.apiKey
    qdrantCollection := u.qdrantCollection.getD c.qdrantCollection }

/-- `updateConfig` (config.ts lines 84-91): spread, then auto-detect mode
from the API key when `updates.apiKey !== undefined` — a truthy (non-empty)
key forces `"hosted"`, a falsy one forces `"local"`. -/
def updateConfig (c : Mem0Config) (u : ConfigUpdates) : Mem0Config :=
  match u.apiKey with
  | some (some k) =>
    { spreadConfig c u with mode := if !k.isEmpty then "hosted" else "local" }
  | _ => spreadConfig c u

/-- The `[a-zA-Z0-9]` character class of `MEM0_API_KEY_REGEX`. -/
def isAsciiAlphanumeric (c : Char) : Bool :=
  ('a' ≤ c && c ≤ 'z') || ('A' ≤ c && c ≤ 'Z') || ('0' ≤ c && c ≤ '9')

/-- Matches a character class repeated exactly `n` times, consuming the
whole remaining input (the regex is `$`-anchored). -/
def matchClassExactly (cls : Char → Bool) : Nat → List Char → Bool
  | 0, [] => true
  | 0, _ :: _ => false
  | _ + 1, [] => false
  | n + 1, c :: cs => cls c && matchClassExactly cls n cs

/-- Matches a literal character sequence (the `^mem0-` part), then hands
the rest of the input to the continuation. -/
def matchLit (lit : List Char) (k : List Char → Bool) : List Char → Bool :=
  fun cs =>
    match lit, cs with
    | [], cs => k cs
    | l :: ls, c :: cs => c == l && matchLit ls k cs
    | _ :: _, [] => false

/-- `MEM0_API_KEY_REGEX = /^mem0-[a-zA-Z0-9]{52}$/` (config.ts line 28),
as an executable matcher: the literal `mem0-` followed by exactly 52
characters of the class, consuming the whole string. -/
def mem0ApiKeyRegexAccepts (s : String) : Bool :=
  matchLit "mem0-".toList (matchClassExactly isAsciiAlphanumeric 52) s.toList

/-- `isValidApiKey` (config.ts lines 110-113): missing or empty
(JS-falsy) keys are rejected, otherwise the regex decides. -/
def isValidApiKey (apiKey : Option String) : Bool :=
  match apiKey with
  | none => false
  | some k => if k.isEmpty then false else mem0ApiKeyRegexAccepts k

/-- `isValidConfiguration` (config.ts lines 118-126). -/
def isValidConfiguration (c : Mem0Config) : Bool :=
  if !truthyOptS c.baseUrl then false
  else if c.mode == "hosted" then isValidApiKey c.apiKey
  else true

/-- `isEnabled` (config.ts lines 103-105). -/
def mem0IsEnabled (c : Mem0Config) : Bool :=
  c.enabled && isValidConfiguration c

/-- `replace(/\/$/, "")`: drop one trailing slash when present. -/
def stripTrailingSlash (s : String) : String :=
  if s.toList.getLast? == some '/' then String.mk s.toList.dropLast else s

/-- `getBaseUrl` (config.ts lines 188-190). -/
def getBaseUrl (c : Mem0Config) : Option String :=
  c.baseUrl.map stripTrailingSlash

theorem matchClassExactly_iff (cls : Char → Bool) :
    ∀ (l : List Char) (n : Nat),
      matchClassExactly cls n l = true ↔ l.length = n ∧ l.all cls = true := by
  intro l
  induction l with
  | nil =>
    intro n
    cases n <;> simp [matchClassExactly]
  | cons c cs ih =>
    intro n
    cases n with
    | zero => simp [matchClassExactly]
    | succ m =>
      simp only [matchClassExactly, Bool.and_eq_true, ih m, List.length_cons,
        Nat.succ.injEq, List.all_cons]
      tauto

theorem matchLit_iff (k : List Char → Bool) :
    ∀ (lit cs : List Char),
      matchLit lit k cs = true ↔ ∃ rest, cs = lit ++ rest ∧ k rest = true := by
  intro lit
  induction lit with
  | nil =>
    intro cs
    simp [matchLit]
  | cons l ls ih =>
    intro cs
    cases cs with
    | nil => simp [matchLit]
    | cons c cs' =>
      simp only [matchLit, Bool.and_eq_true, beq_iff_eq, ih cs', List.cons_append,
        List.cons.injEq]
      constructor
      · rintro ⟨rfl, rest, rfl, hk⟩
        exact ⟨rest, ⟨rfl, rfl⟩, hk⟩
      · rintro ⟨rest, ⟨rfl, rfl⟩, hk⟩
        exact ⟨rfl, rest, rfl, hk⟩

end Mem0Cfg

theorem stringToList_append (a b : String) :
    (a ++ b).toList = a.toList ++ b.toList := by
  cases a
  cases b
  rfl

/-- C8: the API-key validator accepts exactly the strings `"mem0-" ++ t`
with `t` of length 52 drawn from `[a-zA-Z0-9]`; every other string —
different length, different or wrong-case literal part, or any
non-alphanumeric character after it — is rejected, and a missing
(`undefined`) key is rejected. -/
theorem c8_api_key_regex :
    (∀ s : String, Mem0Cfg.isValidApiKey (some s) = true ↔
      ∃ t : String, s = "mem0-" ++ t ∧ t.length = 52 ∧
        t.toList.all Mem0Cfg.isAsciiAlphanumeric = true) ∧
    Mem0Cfg.isValidApiKey none = false := by
  constructor
  · intro s
    constructor
    · intro h
      have hregex : Mem0Cfg.mem0ApiKeyRegexAccepts s = true := by
        by_cases he : s.isEmpty = true
        · simp [Mem0Cfg.isValidApiKey, he] at h
        · simpa [Mem0Cfg.isValidApiKey, he] using h
      rw [Mem0Cfg.mem0ApiKeyRegexAccepts, Mem0Cfg.matchLit_iff] at hregex
      obtain ⟨rest, hdata, hcls⟩ := hregex
      rw [Mem0Cfg.matchClassExactly_iff] at hcls
      refine ⟨String.mk rest, ?_, hcls.1, hcls.2⟩
      apply String.toList_inj.mp
      rw [hdata, stringToList_append]
      rfl
    · rintro ⟨t, rfl, hlen, hall⟩
      have hdata : ("mem0-" ++ t).toList = "mem0-".toList ++ t.toList := by
        cases t with
        | mk l => rfl
      have hne : ("mem0-" ++ t).isEmpty = false := by
        cases hne' : ("mem0-" ++ t).isEmpty with
        | false => rfl
        | true =>
          have := (String.isEmpty_iff _).mp hne'
          have : ("mem0-" ++ t).toList = [] := by rw [this]; rfl
          rw [hdata] at this
          simp at this
      have hmatch : Mem0Cfg.mem0ApiKeyRegexAccepts ("mem0-" ++ t) = true := by
        rw [Mem0Cfg.mem0ApiKeyRegexAccepts, Mem0Cfg.matchLit_iff]
        refine ⟨t.toList, hdata, ?_⟩
        rw [Mem0Cfg.matchClassExactly_iff]
        exact ⟨hlen, hall⟩
      simp [Mem0Cfg.isValidApiKey, hne, hmatch]
  · rfl

/-- The concrete 57-character valid key used as the C8 witness. -/
def validKeyTail : String := "abcdefghijklmnopqrstuvwxyz1234567890ABCDEFGHIJKLMNOP"

/-- Witness for C8: a concrete `mem0-` + 52 alphanumerics key is
accepted. -/
theorem c8_api_key_regex_witness :
    Mem0Cfg.isValidApiKey (some ("mem0-" ++ validKeyTail)) = true :=
  (c8_api_key_regex.1 ("mem0-" ++ validKeyTail)).mpr
    ⟨validKeyTail, rfl, by decide, by decide⟩

/-- C10: whenever the updates object supplies an API-key value, the
resulting mode is `"hosted"` exactly when that value is a non-empty
string and `"local"` when it is empty, overriding any mode supplied in
the same updates object; when no API-key value is supplied, the mode is
the one from the updates object if present, else the previous mode. -/
theorem c10_updateConfig_mode_autodetect
    (c : Mem0Cfg.Mem0Config) (u : Mem0Cfg.ConfigUpdates) :
    (∀ k, u.apiKey = some (some k) →
      (Mem0Cfg.updateConfig c u).mode = if k ≠ "" then "hosted" else "local") ∧
    ((∀ k, u.apiKey ≠ some (some k)) →
      (Mem0Cfg.updateConfig c u).mode = u.mode.getD c.mode) := by
  constructor
  · intro k hk
    by_cases h0 : k = ""
    · simp [Mem0Cfg.updateConfig, hk, h0, show ("" : String).isEmpty = true from rfl]
    · have : k.isEmpty = false := by
        cases he : k.isEmpty with
        | false => rfl
        | true => exact absurd ((String.isEmpty_iff k).mp he) h0
      simp [Mem0Cfg.updateConfig, hk, h0, this]
  · intro h
    match hk : u.apiKey with
    | none => simp [Mem0Cfg.updateConfig, hk, Mem0Cfg.spreadConfig]
    | some none => simp [Mem0Cfg.updateConfig, hk, Mem0Cfg.spreadConfig]
    | some (some k) => exact absurd hk (h k)

/-- Witness for C10: an update that supplies a non-empty API key while
asking for `"local"` mode still lands in `"hosted"` mode. -/
theorem c10_updateConfig_mode_autodetect_witness :
    (Mem0Cfg.updateConfig Mem0Cfg.DEFAULT_CONFIG
      { mode := some "local", apiKey := some (some "mem0-k") }).mode = "hosted" := by
  have h := (c10_updateConfig_mode_autodetect Mem0Cfg.DEFAULT_CONFIG
    { mode := some "local", apiKey := some (some "mem0-k") }).1 "mem0-k" rfl
  rw [h]
  decide

namespace Qdrant

/-- The payload stored with a memory point
(qdrant-client.ts lines 213-220); metadata entries are opaque pairs. -/
structure Mem0Payload where
  content : String
  user_id : String
  agent_id : String
  metadata : List (String × String)
  created_at : String
  updated_at : String
  deriving Repr

/-- A point in a Qdrant collection: id, embedding vector, payload. -/
structure QdrantPoint where
  id : String
  vector : List Float
  payload : Mem0Payload
  deriving Repr

/-- A collection as the adapter sees it: the configured vector size and
distance (`collectionInfo.config?.params?.vectors?.size`), its payload
indexes and its points. -/
structure QdrantCollection where
  vectorSize : Nat
  distance : String
  payloadIndexes : List String
  points : List QdrantPoint
  deriving Repr

/-- The remote vector database: a set of collections keyed by name
(operations below prepend/replace, so the first match is the current
collection). -/
structure QdrantServer where
  collections : List (String × QdrantCollection)
  deriving Repr

/-- `getCollectionInfo` (lines 184-197): `none` when the collection does
not exist. -/
def getCollection (srv : QdrantServer) (name : String) : Option QdrantCollection :=
  (srv.collections.find? (fun p => p.1 == name)).map (fun p => p.2)

/-- `client.createCollection(name, { vectors: { size, distance } })`. -/
def createCollection (srv : QdrantServer) (name : String) (size : Nat)
    (distance : String) : QdrantServer :=
  { collections :=
      (name, { vectorSize := size, distance := distance, payloadIndexes := [], points := [] })
        :: srv.collections }

/-- `client.deleteCollection(name)`. -/
def deleteCollection (srv : QdrantServer) (name : String) : QdrantServer :=
  { collections := srv.collections.filter (fun p => p.1 != name) }

/-- Replace the named collection. -/
def setCollection (srv : QdrantServer) (name : String) (col : QdrantCollection) : QdrantServer :=
  { collections := (name, col) :: srv.collections.filter (fun p => p.1 != name) }

/-- The state of `Mem0QdrantClient`: the collection name and the
configured vector size (`this.vectorSize`). -/
structure ClientModel where
  collectionName : String
  vectorSize : Nat
  deriving Repr, DecidableEq

/-- The constructor (qdrant-client.ts lines 37-81) pins
`vectorSize = 1536` and defaults the collection name; the URL parsing it
also performs configures only the transport and is not modelled. -/
def mkMem0QdrantClient (collectionName : String := "mem0_memories") : ClientModel :=
  { collectionName := collectionName, vectorSize := 1536 }

/-- `DISTANCE_METRIC = "Cosine"` (line 35). -/
def DISTANCE_METRIC : String := "Cosine"

/-- The four payload-index fields of `createPayloadIndexes`
(lines 156-161). -/
def indexFields : List String := ["user_id", "agent_id", "created_at", "updated_at"]

/-- One `createPayloadIndex` call: an "already exists" outcome is
swallowed, so the index set only ever grows. -/
def addIndex (col : QdrantCollection) (f : String) : QdrantCollection :=
  if col.payloadIndexes.contains f then col
  else { col with payloadIndexes := col.payloadIndexes ++ [f] }

/-- `createPayloadIndexes` (lines 155-179). -/
def createPayloadIndexes (c : ClientModel) (srv : QdrantServer) : QdrantServer :=
  match getCollection srv c.collectionName with
  | none => srv
  | some col => setCollection srv c.collectionName (indexFields.foldl addIndex col)

/-- `initialize()` (qdrant-client.ts lines 104-150): create the
collection when absent; delete and recreate it when its vector size
differs from the configured one; otherwise leave it; always re-ensure the
payload indexes; return whether the collection was (re)created.
Transport failures raise out of the method and are outside this model. -/
def initCollection (c : ClientModel) (srv : QdrantServer) : Bool × QdrantServer :=
  match getCollection srv c.collectionName with
  | none =>
    (true, createPayloadIndexes c (createCollection srv c.collectionName c.vectorSize DISTANCE_METRIC))
  | some info =>
    if info.vectorSize != c.vectorSize then
      (true, createPayloadIndexes c
        (createCollection (deleteCollection srv c.collectionName)
          c.collectionName c.vectorSize DISTANCE_METRIC))
    else
      (false, createPayloadIndexes c srv)

/-- `Mem0Memory` (qdrant-client.ts lines 10-19). -/
structure Mem0Memory where
  id : String
  content : String
  user_id : String
  agent_id : String
  metadata : List (String × String) := []
  created_at : String
  updated_at : String
  vector : Option (List Float) := none
  deriving Repr

/-- Point upsert: replace any point with the same id, append the new
point. -/
def upsertPoints (pts : List QdrantPoint) (pt : QdrantPoint) : List QdrantPoint :=
  pts.filter (fun q => q.id != pt.id) ++ [pt]

/-- `client.upsert(collectionName, { points: [...] })`: fails when the
collection does not exist. -/
def upsert (srv : QdrantServer) (name : String) (pt : QdrantPoint) : Except String QdrantServer :=
  match getCollection srv name with
  | none => .error ("Collection " ++ name ++ " does not exist")
  | some col => .ok (setCollection srv name { col with points := upsertPoints col.points pt })

/-- `storeMemory` (qdrant-client.ts lines 202-229): reject a missing
vector or one whose length differs from the configured size before any
upsert is issued. -/
def storeMemory (c : ClientModel) (m : Mem0Memory) (srv : QdrantServer) :
    Except String QdrantServer :=
  match m.vector with
  | none => .error "Memory must have a valid vector of the correct size"
  | some v =>
    if v.length != c.vectorSize then
      .error "Memory must have a valid vector of the correct size"
    else
      upsert srv c.collectionName
        { id := m.id
          vector := v
          payload :=
            { content := m.content
              user_id := m.user_id
              agent_id := m.agent_id
              metadata := m.metadata
              created_at := m.created_at
              updated_at := m.updated_at } }

theorem getCollection_setCollection (srv : QdrantServer) (name : String)
    (col : QdrantCollection) : getCollection (setCollection srv name col) name = some col := by
  simp [getCollection, setCollection, List.find?]

theorem foldl_addIndex_preserves :
    ∀ (fs : List String) (col : QdrantCollection),
      (fs.foldl addIndex col).vectorSize = col.vectorSize ∧
      (fs.foldl addIndex col).distance = col.distance ∧
      (fs.foldl addIndex col).points = col.points := by
  intro fs
  induction fs with
  | nil => intro col; exact ⟨rfl, rfl, rfl⟩
  | cons f fs ih =>
    intro col
    rw [List.foldl_cons]
    have hbase : (addIndex col f).vectorSize = col.vectorSize ∧
        (addIndex col f).distance = col.distance ∧
        (addIndex col f).points = col.points := by
      unfold addIndex
      split <;> exact ⟨rfl, rfl, rfl⟩
    obtain ⟨h1, h2, h3⟩ := ih (addIndex col f)
    exact ⟨h1.trans hbase.1, h2.trans hbase.2.1, h3.trans hbase.2.2⟩

theorem getCollection_createCollection (srv : QdrantServer) (name : String)
    (size : Nat) (distance : String) :
    getCollection (createCollection srv name size distance) name =
      some { vectorSize := size, distance := distance, payloadIndexes := [], points := [] } := by
  simp [getCollection, createCollection, List.find?]

theorem getCollection_createPayloadIndexes (c : ClientModel) (srv : QdrantServer)
    (col : QdrantCollection) (h : getCollection srv c.collectionName = some col) :
    getCollection (createPayloadIndexes c srv) c.collectionName =
      some (indexFields.foldl addIndex col) := by
  unfold createPayloadIndexes
  rw [h]
  exact getCollection_setCollection srv c.collectionName (indexFields.foldl addIndex col)

end Qdrant

/-- C3: `initialize()` creates an absent collection with the configured
dimension and Cosine distance and reports `created = true`; recreates an
existing collection whose vector size differs from the configured one
(the recreated collection starts empty — the documented data loss) and
reports `created = true`; leaves a matching collection alone and reports
`created = false`; and the constructor configures dimension 1536. -/
theorem c3_initialize_dimension_reconcile
    (c : Qdrant.ClientModel) (srv : Qdrant.QdrantServer) :
    (Qdrant.getCollection srv c.collectionName = none →
      (Qdrant.initCollection c srv).1 = true ∧
      ∃ col, Qdrant.getCollection (Qdrant.initCollection c srv).2 c.collectionName = some col ∧
        col.vectorSize = c.vectorSize ∧ col.distance = Qdrant.DISTANCE_METRIC ∧
        col.points = []) ∧
    (∀ col0, Qdrant.getCollection srv c.collectionName = some col0 →
      col0.vectorSize ≠ c.vectorSize →
      (Qdrant.initCollection c srv).1 = true ∧
      ∃ col, Qdrant.getCollection (Qdrant.initCollection c srv).2 c.collectionName = some col ∧
        col.vectorSize = c.vectorSize ∧ col.distance = Qdrant.DISTANCE_METRIC ∧
        col.points = []) ∧
    (∀ col0, Qdrant.getCollection srv c.collectionName = some col0 →
      col0.vectorSize = c.vectorSize →
      (Qdrant.initCollection c srv).1 = false) ∧
    (∀ name, (Qdrant.mkMem0QdrantClient name).vectorSize = 1536) := by
  refine ⟨?_, ?_, ?_, fun _ => rfl⟩
  · intro h
    simp only [Qdrant.initCollection, h]
    refine ⟨trivial, Qdrant.indexFields.foldl Qdrant.addIndex
      { vectorSize := c.vectorSize, distance := Qdrant.DISTANCE_METRIC,
        payloadIndexes := [], points := [] }, ?_, ?_, ?_, ?_⟩
    · exact Qdrant.getCollection_createPayloadIndexes c _ _
        (Qdrant.getCollection_createCollection _ _ _ _)
    · exact (Qdrant.foldl_addIndex_preserves Qdrant.indexFields _).1
    · exact (Qdrant.foldl_addIndex_preserves Qdrant.indexFields _).2.1
    · exact (Qdrant.foldl_addIndex_preserves Qdrant.indexFields _).2.2
  · intro col0 h hne
    have hbne : (col0.vectorSize != c.vectorSize) = true := by
      simpa using hne
    simp only [Qdrant.initCollection, h, hbne, if_true]
    refine ⟨trivial, Qdrant.indexFields.foldl Qdrant.addIndex
      { vectorSize := c.vectorSize, distance := Qdrant.DISTANCE_METRIC,
        payloadIndexes := [], points := [] }, ?_, ?_, ?_, ?_⟩
    · exact Qdrant.getCollection_createPayloadIndexes c _ _
        (Qdrant.getCollection_createCollection _ _ _ _)
    · exact (Qdrant.foldl_addIndex_preserves Qdrant.indexFields _).1
    · exact (Qdrant.foldl_addIndex_preserves Qdrant.indexFields _).2.1
    · exact (Qdrant.foldl_addIndex_preserves Qdrant.indexFields _).2.2
  · intro col0 h heq
    have hbne : (col0.vectorSize != c.vectorSize) = false := by
      simp [heq]
    simp only [Qdrant.initCollection, h, hbne, Bool.false_eq_true, if_false]

/-- The C3 witness scenario: the collection already exists with dimension
768 while the client is configured (by its constructor) for 1536. -/
def srv768 : Qdrant.QdrantServer :=
  { collections := [("mem0_memories",
      { vectorSize := 768
        distance := "Cosine"
        payloadIndexes := ["user_id", "agent_id", "created_at", "updated_at"]
        points := [] })] }

/-- Witness for C3: a 768-dimension collection against a 1536-configured
client is recreated and `initialize()` reports `created = true`. -/
theorem c3_initialize_dimension_reconcile_witness :
    (Qdrant.initCollection (Qdrant.mkMem0QdrantClient "mem0_memories") srv768).1 = true :=
  ((c3_initialize_dimension_reconcile (Qdrant.mkMem0QdrantClient "mem0_memories") srv768).2.1
    { vectorSize := 768
      distance := "Cosine"
      payloadIndexes := ["user_id", "agent_id", "created_at", "updated_at"]
      points := [] }
    rfl (by decide)).1

/-- C4: every record upserted through `storeMemory` carries a vector of
the collection's configured dimension — a memory with a missing vector or
one whose length differs from the configured size makes `storeMemory`
fail before any upsert, and a successful store also preserves the
invariant that every point of the collection has a vector of the
configured dimension. -/
theorem c4_store_memory_dimension_invariant
    (c : Qdrant.ClientModel) (m : Qdrant.Mem0Memory) (srv : Qdrant.QdrantServer) :
    ((m.vector = none ∨ ∃ v, m.vector = some v ∧ v.length ≠ c.vectorSize) →
      Qdrant.storeMemory c m srv =
        .error "Memory must have a valid vector of the correct size") ∧
    (∀ srv', Qdrant.storeMemory c m srv = .ok srv' →
      (∃ v, m.vector = some v ∧ v.length = c.vectorSize) ∧
      ∀ col col', Qdrant.getCollection srv c.collectionName = some col →
        Qdrant.getCollection srv' c.collectionName = some col' →
        (∀ pt ∈ col.points, pt.vector.length = c.vectorSize) →
        (∀ pt ∈ col'.points, pt.vector.length = c.vectorSize)) := by
  constructor
  · rintro (h | ⟨v, hv, hne⟩)
    · simp [Qdrant.storeMemory, h]
    · have hbne : (v.length != c.vectorSize) = true := by simpa using hne
      simp [Qdrant.storeMemory, hv, hbne]
  · intro srv' hok
    cases hv : m.vector with
    | none => simp [Qdrant.storeMemory, hv] at hok
    | some v =>
      by_cases hlen : v.length = c.vectorSize
      · have hbne : (v.length != c.vectorSize) = false := by simp [hlen]
        simp only [Qdrant.storeMemory, hv, hbne, Bool.false_eq_true, if_false,
          Qdrant.upsert] at hok
        refine ⟨⟨v, rfl, hlen⟩, ?_⟩
        intro col col' hcol hcol' hinv
        rw [hcol] at hok
        simp only [Except.ok.injEq] at hok
        rw [← hok, Qdrant.getCollection_setCollection] at hcol'
        simp only [Option.some.injEq] at hcol'
        rw [← hcol']
        intro q hq
        rcases List.mem_append.mp hq with hq1 | hq2
        · exact hinv q (List.mem_of_mem_filter hq1)
        · rw [List.mem_singleton.mp hq2]
          exact hlen
      · have hbne : (v.length != c.vectorSize) = true := by simpa using hlen
        simp [Qdrant.storeMemory, hv, hbne] at hok

/-- The client of the C4 witness. -/
def clientC4 : Qdrant.ClientModel := Qdrant.mkMem0QdrantClient "mem0_memories"

/-- A memory without a vector: must be rejected. -/
def memNoVecC4 : Qdrant.Mem0Memory :=
  { id := "mem_1", content := "hello", user_id := "u", agent_id := "a"
    created_at := "2024-01-01T00:00:00Z", updated_at := "2024-01-01T00:00:00Z" }

/-- A memory with a vector of the configured length 1536. -/
def memGoodC4 : Qdrant.Mem0Memory :=
  { memNoVecC4 with id := "mem_2", vector := some (List.replicate 1536 (0.0 : Float)) }

/-- The server of the C4 witness: an empty 1536-dimension collection. -/
def srvC4 : Qdrant.QdrantServer :=
  { collections := [("mem0_memories",
      { vectorSize := 1536, distance := "Cosine", payloadIndexes := [], points := [] })] }

set_option maxRecDepth 10000 in
/-- Witness for C4: the vectorless memory is rejected, and the stored
good memory has a vector of exactly the configured dimension. -/
theorem c4_store_memory_dimension_invariant_witness :
    Qdrant.storeMemory clientC4 memNoVecC4 srvC4 =
      .error "Memory must have a valid vector of the correct size" ∧
    (∃ v, memGoodC4.vector = some v ∧ v.length = clientC4.vectorSize) :=
  ⟨(c4_store_memory_dimension_invariant clientC4 memNoVecC4 srvC4).1 (Or.inl rfl),
    ((c4_store_memory_dimension_invariant clientC4 memGoodC4 srvC4).2 _ rfl).1⟩

namespace Mem0Client

/-- An untyped JSON value, standing in for the `any`-typed payloads of
the hosted HTTP path and the object literals built by the local path. -/
inductive Json where
  | null
  | bool (b : Bool)
  | num (n : Float)
  | str (s : String)
  | arr (xs : List Json)
  | obj (fields : List (String × Json))

/-- The Mem0 error taxonomy (errors.ts); each constructor carries what
its class stores.  `unknown` stands for a plain JavaScript `Error` that
is not a `Mem0Error`. -/
inductive Mem0ErrorModel where
  | invalidApiKey (apiKey : Option String)
  | api (message : String) (statusCode : Option Nat)
  | notInitialized
  | hostedMode
  | network (message : String)
  | unknown (message : String)

/-- The `code` field of each error class (errors.ts); `formatMem0Error`
renders non-`Mem0Error` values with code `UNKNOWN`. -/
def errorCode : Mem0ErrorModel → String
  | .invalidApiKey _ => "INVALID_API_KEY"
  | .api _ _ => "API_ERROR"
  | .notInitialized => "NOT_INITIALIZED"
  | .hostedMode => "HOSTED_MODE_ERROR"
  | .network _ => "NETWORK_ERROR"
  | .unknown _ => "UNKNOWN"

/-- The `message` of each error class (errors.ts). -/
def errorMessage : Mem0ErrorModel → String
  | .invalidApiKey (some k) =>
    "Invalid Mem0 API key format. Expected format: mem0-[52 alphanumeric characters], got: " ++
      k.take 10 ++ "..."
  | .invalidApiKey none => "Missing Mem0 API key. API key is required for hosted mode."
  | .api msg _ => msg
  | .notInitialized => "Mem0 service is not initialized. Call configureMem0() first."
  | .hostedMode =>
    "Hosted mode requires a valid API key. Switch to local mode or provide a valid API key."
  | .network msg => "Network error: " ++ msg
  | .unknown msg => msg

/-- `formatMem0Error` (errors.ts lines 99-109): always the structured
`[Mem0 CODE] message` line. -/
def formatMem0Error (e : Mem0ErrorModel) : String :=
  "[Mem0 " ++ errorCode e ++ "] " ++ errorMessage e

/-- One external call issued by an operation: a hosted HTTP request, an
embedder invocation, or a vector-store operation. -/
inductive Mem0Call where
  | http (method : String) (endpoint : String)
  | embed (texts : List String)
  | qdrant (op : String)

/-- The outcome of the one axios request of `makeRequest`:
a response, an HTTP error status, or a transport failure. -/
inductive HttpOutcome where
  | ok (data : Json)
  | httpStatus (statusCode : Nat) (message : String)
  | noResponse (message : String)

/-- The outcome of `embedder.createEmbeddings`: a (possibly empty) list
of embeddings, or a raised error. -/
inductive EmbedOutcome where
  | ok (embeddings : List (List Float))
  | err (message : String)

/-- A hit returned by `Mem0QdrantClient.searchMemories`
(qdrant-client.ts lines 269-281). -/
structure SearchHit where
  id : String
  score : Float
  payload : Qdrant.Mem0Memory

/-- The environment of one batch of operations: the outcomes of every
external call the dual-mode client can make, plus the clock and id
generator (`Date.now()` / `generateMemoryId`). -/
structure Mem0Env where
  http : String → String → HttpOutcome
  createEmbeddings : List String → EmbedOutcome
  qdrantQuery : Except String (List SearchHit)
  qdrantUpsert : Except String Unit
  qdrantRetrieve : Except String (List Qdrant.Mem0Memory)
  qdrantDeletePoints : Except String Unit
  qdrantScroll : Except String (List Qdrant.Mem0Memory)
  qdrantGetCollections : Except String Unit
  nowIso : String
  freshId : String

/-- The module-level globals of client.ts (lines 22-32): the config
manager (holding its config), the Qdrant client, the embedder. -/
structure Mem0Globals where
  configManager : Option Mem0Cfg.Mem0Config
  qdrantClient : Option Qdrant.ClientModel
  embedder : Bool

/-- What one public operation produces: its return value, the external
calls it issued, and its `console.error` lines (multi-argument calls are
flattened with a separating space). -/
structure OpResult (α : Type) where
  value : α
  calls : List Mem0Call
  logs : List String

/-- `isServiceReady` (client.ts lines 105-112): false when never
configured, else `manager.isEnabled()`. -/
def isServiceReady (g : Mem0Globals) : Bool :=
  match g.configManager with
  | none => false
  | some cfg => Mem0Cfg.mem0IsEnabled cfg

/-- `makeRequest` (client.ts lines 141-183): missing/empty base URL
raises `Mem0ApiError` before any call; 401/403 become
`Mem0InvalidApiKeyError`, other statuses `Mem0ApiError` with the status,
transport failures `Mem0NetworkError`. -/
def makeRequest (cfg : Mem0Cfg.Mem0Config) (env : Mem0Env) (method endpoint : String) :
    Except Mem0ErrorModel Json × List Mem0Call :=
  match Mem0Cfg.getBaseUrl cfg with
  | none => (.error (.api "Base URL not configured" none), [])
  | some baseUrl =>
    if baseUrl.isEmpty then (.error (.api "Base URL not configured" none), [])
    else
      match env.http method endpoint with
      | .ok data => (.ok data, [.http method endpoint])
      | .httpStatus statusCode message =>
        if statusCode == 401 || statusCode == 403 then
          (.error (.invalidApiKey none), [.http method endpoint])
        else
          (.error (.api ("API request failed: " ++ message) (some statusCode)),
            [.http method endpoint])
      | .noResponse message => (.error (.network message), [.http method endpoint])

/-- `Mem0QdrantClient.searchMemories` as its caller sees it: a Qdrant
failure is logged `Failed to search memories:` and rethrown
(qdrant-client.ts lines 282-285). -/
def clientSearchMemories (env : Mem0Env) :
    Except String (List SearchHit) × List Mem0Call × List String :=
  match env.qdrantQuery with
  | .ok hits => (.ok hits, [.qdrant "query"], [])
  | .error msg => (.error msg, [.qdrant "query"], ["Failed to search memories: " ++ msg])

/-- `Mem0QdrantClient.storeMemory` as its caller sees it: the
vector-size guard throws before any upsert (cf. C4); a Qdrant failure is
logged `Failed to store memory:` and rethrown. -/
def clientStoreMemory (vectorSize : Nat) (m : Qdrant.Mem0Memory) (env : Mem0Env) :
    Except String Unit × List Mem0Call × List String :=
  match m.vector with
  | none => (.error "Memory must have a valid vector of the correct size", [], [])
  | some v =>
    if v.length != vectorSize then
      (.error "Memory must have a valid vector of the correct size", [], [])
    else
      match env.qdrantUpsert with
      | .ok _ => (.ok (), [.qdrant "upsert"], [])
      | .error msg => (.error msg, [.qdrant "upsert"], ["Failed to store memory: " ++ msg])

/-- `Mem0QdrantClient.getMemory`: an empty retrieve result is `null`; a
failure is logged `Failed to get memory:` and rethrown. -/
def clientGetMemory (env : Mem0Env) :
    Except String (Option Qdrant.Mem0Memory) × List Mem0Call × List String :=
  match env.qdrantRetrieve with
  | .ok [] => (.ok none, [.qdrant "retrieve"], [])
  | .ok (m :: _) => (.ok (some m), [.qdrant "retrieve"], [])
  | .error msg => (.error msg, [.qdrant "retrieve"], ["Failed to get memory: " ++ msg])

/-- `Mem0QdrantClient.deleteMemory` CATCHES a Qdrant failure, logs
`Failed to delete memory:` and returns false instead of rethrowing
(qdrant-client.ts lines 321-332). -/
def clientDeleteMemory (env : Mem0Env) : Bool × List Mem0Call × List String :=
  match env.qdrantDeletePoints with
  | .ok _ => (true, [.qdrant "delete"], [])
  | .error msg => (false, [.qdrant "delete"], ["Failed to delete memory: " ++ msg])

/-- `Mem0QdrantClient.listMemories`: a failure is logged `Failed to list
memories:` and rethrown. -/
def clientListMemories (env : Mem0Env) :
    Except String (List Qdrant.Mem0Memory) × List Mem0Call × List String :=
  match env.qdrantScroll with
  | .ok ms => (.ok ms, [.qdrant "scroll"], [])
  | .error msg => (.error msg, [.qdrant "scroll"], ["Failed to list memories: " ++ msg])

/-- `Mem0QdrantClient.healthCheck` catches failures, logs
`Qdrant health check failed:` and returns false. -/
def clientHealthCheck (env : Mem0Env) : Bool × List Mem0Call × List String :=
  match env.qdrantGetCollections with
  | .ok _ => (true, [.qdrant "getCollections"], [])
  | .error msg => (false, [.qdrant "getCollections"], ["Qdrant health check failed: " ++ msg])

/-- Metadata record rendered as a JSON object. -/
def metadataToJson (md : List (String × String)) : Json :=
  .obj (md.map (fun p => (p.1, .str p.2)))

/-- The object literal the local path builds from a stored memory
(client.ts lines 410-419 and 523-531). -/
def memoryToJson (m : Qdrant.Mem0Memory) : Json :=
  .obj [("id", .str m.id), ("content", .str m.content), ("user_id", .str m.user_id),
    ("agent_id", .str m.agent_id), ("metadata", metadataToJson m.metadata),
    ("created_at", .str m.created_at), ("updated_at", .str m.updated_at)]

/-- The object literal `searchMemoriesLocal` builds from a search hit
(client.ts lines 249-258). -/
def searchHitToJson (r : SearchHit) : Json :=
  .obj [("id", .str r.id), ("content", .str r.payload.content), ("score", .num r.score),
    ("user_id", .str r.payload.user_id), ("agent_id", .str r.payload.agent_id),
    ("metadata", metadataToJson r.payload.metadata),
    ("created_at", .str r.payload.created_at), ("updated_at", .str r.payload.updated_at)]

/-- `searchMemoriesLocal` (client.ts lines 223-263): its own try/catch
converts any failure to `null` with a plain `[Mem0] ...` log, so nothing
propagates to the operation boundary. -/
def searchMemoriesLocal (g : Mem0Globals) (env : Mem0Env) (query : String) :
    OpResult (Option (List Json)) :=
  if g.qdrantClient.isNone || !g.embedder then
    ⟨none, [], ["[Mem0] Local mode not properly initialized"]⟩
  else
    match env.createEmbeddings [query] with
    | .err msg => ⟨none, [.embed [query]], ["[Mem0] Local search failed: " ++ msg]⟩
    | .ok [] => ⟨none, [.embed [query]], ["[Mem0] Failed to create embedding for query"]⟩
    | .ok (_ :: _) =>
      match clientSearchMemories env with
      | (.ok hits, calls, logs) =>
        ⟨some (hits.map searchHitToJson), .embed [query] :: calls, logs⟩
      | (.error msg, calls, logs) =>
        ⟨none, .embed [query] :: calls, logs ++ ["[Mem0] Local search failed: " ++ msg]⟩

/-- `search_memories` (client.ts lines 188-218). -/
def search_memories (g : Mem0Globals) (env : Mem0Env) (query user_id agent_id : String) :
    OpResult (Option (List Json)) :=
  if !isServiceReady g then ⟨none, [], []⟩
  else
    match g.configManager with
    | none => ⟨none, [], [formatMem0Error .notInitialized]⟩
    | some cfg =>
      if cfg.mode == "hosted" then
        if !Mem0Cfg.isValidApiKey cfg.apiKey then
          ⟨none, [], [formatMem0Error .hostedMode]⟩
        else
          match makeRequest cfg env "POST" "/search" with
          | (.ok (.arr xs), calls) => ⟨some xs, calls, []⟩
          | (.ok _, calls) => ⟨some [], calls, []⟩
          | (.error e, calls) => ⟨none, calls, [formatMem0Error e]⟩
      else
        searchMemoriesLocal g env query

/-- One element of the `messages: any[]` argument of `store_memory`:
either a string or an object with an optional `content` field (with its
`JSON.stringify` rendering for the fallback). -/
inductive MessageModel where
  | str (s : String)
  | obj (content : Option String) (stringified : String)

/-- `typeof msg === "string" ? msg : msg.content || JSON.stringify(msg)`
(client.ts line 323). -/
def extractMessageText : MessageModel → String
  | .str s => s
  | .obj (some c) stringified => if c.isEmpty then stringified else c
  | .obj none stringified => stringified

/-- `messages.map(...).join(" ")` (client.ts lines 322-324). -/
def joinedContent (messages : List MessageModel) : String :=
  String.intercalate " " (messages.map extractMessageText)

/-- `storeMemoryLocal` (client.ts lines 309-356). -/
def storeMemoryLocal (g : Mem0Globals) (env : Mem0Env) (messages : List MessageModel)
    (user_id agent_id : String) (metadata : Option (List (String × String))) :
    OpResult Bool :=
  match g.qdrantClient with
  | none => ⟨false, [], ["[Mem0] Local mode not properly initialized"]⟩
  | some qc =>
    if !g.embedder then ⟨false, [], ["[Mem0] Local mode not properly initialized"]⟩
    else
      match env.createEmbeddings [joinedContent messages] with
      | .err msg =>
        ⟨false, [.embed [joinedContent messages]],
          ["[Mem0] Local memory storage failed: " ++ msg]⟩
      | .ok [] =>
        ⟨false, [.embed [joinedContent messages]],
          ["[Mem0] Failed to create embedding for memory content"]⟩
      | .ok (v :: _) =>
        match clientStoreMemory qc.vectorSize
          { id := env.freshId, content := joinedContent messages, user_id := user_id
            agent_id := agent_id, metadata := metadata.getD []
            created_at := env.nowIso, updated_at := env.nowIso, vector := some v } env with
        | (.ok _, calls, logs) => ⟨true, .embed [joinedContent messages] :: calls, logs⟩
        | (.error msg, calls, logs) =>
          ⟨false, .embed [joinedContent messages] :: calls,
            logs ++ ["[Mem0] Local memory storage failed: " ++ msg]⟩

/-- `store_memory` (client.ts lines 268-304). -/
def store_memory (g : Mem0Globals) (env : Mem0Env) (messages : List MessageModel)
    (user_id agent_id : String) (metadata : Option (List (String × String))) :
    OpResult Bool :=
  if !isServiceReady g then ⟨false, [], []⟩
  else
    match g.configManager with
    | none => ⟨false, [], [formatMem0Error .notInitialized]⟩
    | some cfg =>
      if cfg.mode == "hosted" then
        if !Mem0Cfg.isValidApiKey cfg.apiKey then
          ⟨false, [], [formatMem0Error .hostedMode]⟩
        else
          match makeRequest cfg env "POST" "/memories" with
          | (.ok _, calls) => ⟨true, calls, []⟩
          | (.error e, calls) => ⟨false, calls, [formatMem0Error e]⟩
      else
        storeMemoryLocal g env messages user_id agent_id metadata

/-- `getMemoryLocal` (client.ts lines 398-424). -/
def getMemoryLocal (g : Mem0Globals) (env : Mem0Env) : OpResult (Option Json) :=
  match g.qdrantClient with
  | none => ⟨none, [], ["[Mem0] Local mode not properly initialized"]⟩
  | some _ =>
    match clientGetMemory env with
    | (.ok none, calls, logs) => ⟨none, calls, logs⟩
    | (.ok (some m), calls, logs) => ⟨some (memoryToJson m), calls, logs⟩
    | (.error msg, calls, logs) =>
      ⟨none, calls, logs ++ ["[Mem0] Local get memory failed: " ++ msg]⟩

/-- `get_memory` (client.ts lines 368-393). -/
def get_memory (g : Mem0Globals) (env : Mem0Env) (memory_id : String) :
    OpResult (Option Json) :=
  if !isServiceReady g then ⟨none, [], []⟩
  else
    match g.configManager with
    | none => ⟨none, [], [formatMem0Error .notInitialized]⟩
    | some cfg =>
      if cfg.mode == "hosted" then
        if !Mem0Cfg.isValidApiKey cfg.apiKey then
          ⟨none, [], [formatMem0Error .hostedMode]⟩
        else
          match makeRequest cfg env "GET" ("/memories/" ++ memory_id) with
          | (.ok d, calls) => ⟨some d, calls, []⟩
          | (.error e, calls) => ⟨none, calls, [formatMem0Error e]⟩
      else
        getMemoryLocal g env

/-- `deleteMemoryLocal` (client.ts lines 459-472): it awaits the
adapter's `deleteMemory` — whose boolean result it DISCARDS — and then
returns true; since the adapter catches its own failures, this helper's
catch is unreachable for Qdrant failures. -/
def deleteMemoryLocal (g : Mem0Globals) (env : Mem0Env) : OpResult Bool :=
  match g.qdrantClient with
  | none => ⟨false, [], ["[Mem0] Local mode not properly initialized"]⟩
  | some _ =>
    match clientDeleteMemory env with
    | (_, calls, logs) => ⟨true, calls, logs⟩

/-- `delete_memory` (client.ts lines 429-454). -/
def delete_memory (g : Mem0Globals) (env : Mem0Env) (memory_id : String) : OpResult Bool :=
  if !isServiceReady g then ⟨false, [], []⟩
  else
    match g.configManager with
    | none => ⟨false, [], [formatMem0Error .notInitialized]⟩
    | some cfg =>
      if cfg.mode == "hosted" then
        if !Mem0Cfg.isValidApiKey cfg.apiKey then
          ⟨false, [], [formatMem0Error .hostedMode]⟩
        else
          match makeRequest cfg env "DELETE" ("/memories/" ++ memory_id) with
          | (.ok _, calls) => ⟨true, calls, []⟩
          | (.error e, calls) => ⟨false, calls, [formatMem0Error e]⟩
      else
        deleteMemoryLocal g env

/-- The query string built by `list_memories` (client.ts lines 492-496);
URL-encoding of the values is not modelled.  A `limit` of 0 is falsy and
omitted, as in `...(limit && { limit: limit.toString() })`. -/
def listEndpoint (user_id agent_id : String) (limit : Option Nat) : String :=
  "/memories?user_id=" ++ user_id ++ "&agent_id=" ++ agent_id ++
    (match limit with
      | some n => if n != 0 then "&limit=" ++ toString n else ""
      | none => "")

/-- `listMemoriesLocal` (client.ts lines 513-536). -/
def listMemoriesLocal (g : Mem0Globals) (env : Mem0Env) : OpResult (Option (List Json)) :=
  match g.qdrantClient with
  | none => ⟨none, [], ["[Mem0] Local mode not properly initialized"]⟩
  | some _ =>
    match clientListMemories env with
    | (.ok ms, calls, logs) => ⟨some (ms.map memoryToJson), calls, logs⟩
    | (.error msg, calls, logs) =>
      ⟨none, calls, logs ++ ["[Mem0] Local list memories failed: " ++ msg]⟩

/-- `list_memories` (client.ts lines 477-508). -/
def list_memories (g : Mem0Globals) (env : Mem0Env) (user_id agent_id : String)
    (limit : Option Nat) : OpResult (Option (List Json)) :=
  if !isServiceReady g then ⟨none, [], []⟩
  else
    match g.configManager with
    | none => ⟨none, [], [formatMem0Error .notInitialized]⟩
    | some cfg =>
      if cfg.mode == "hosted" then
        if !Mem0Cfg.isValidApiKey cfg.apiKey then
          ⟨none, [], [formatMem0Error .hostedMode]⟩
        else
          match makeRequest cfg env "GET" (listEndpoint user_id agent_id limit) with
          | (.ok (.arr xs), calls) => ⟨some xs, calls, []⟩
          | (.ok _, calls) => ⟨some [], calls, []⟩
          | (.error e, calls) => ⟨none, calls, [formatMem0Error e]⟩
      else
        listMemoriesLocal g env

/-- The result of `health_check` minus its wall-clock `timestamp`. -/
structure HealthResult where
  status : String
  mode : String
  deriving Repr, DecidableEq

/-- `health_check` (client.ts lines 541-586). -/
def health_check (g : Mem0Globals) (env : Mem0Env) : OpResult HealthResult :=
  match g.configManager with
  | none => ⟨⟨"error", "unknown"⟩, [], [formatMem0Error .notInitialized]⟩
  | some cfg =>
    if !isServiceReady g then ⟨⟨"error", cfg.mode⟩, [], []⟩
    else if cfg.mode == "hosted" then
      if !Mem0Cfg.isValidApiKey cfg.apiKey then
        ⟨⟨"error", "unknown"⟩, [], [formatMem0Error .hostedMode]⟩
      else
        match makeRequest cfg env "GET" "/health" with
        | (.ok _, calls) => ⟨⟨"ok", cfg.mode⟩, calls, []⟩
        | (.error e, calls) => ⟨⟨"error", "unknown"⟩, calls, [formatMem0Error e]⟩
    else
      match g.qdrantClient with
      | none =>
        ⟨⟨"error", "unknown"⟩, [],
          [formatMem0Error (.unknown "Qdrant client not initialized")]⟩
      | some _ =>
        match clientHealthCheck env with
        | (true, calls, logs) => ⟨⟨"ok", cfg.mode⟩, calls, logs⟩
        | (false, calls, logs) =>
          ⟨⟨"error", "unknown"⟩, calls,
            logs ++ [formatMem0Error (.unknown "Qdrant health check failed")]⟩

/-- The `process.env` variables read by `loadFromEnvironment`
(config.ts lines 62-79). -/
structure ProcEnv where
  MEM0_API_KEY : Option String := none
  MEM0_BASE_URL : Option String := none
  MEM0_MODE : Option String := none
  deriving Repr, DecidableEq

/-- `loadFromEnvironment` (config.ts lines 62-79), run by the
constructor over `DEFAULT_CONFIG`: a truthy env API key implies hosted
mode; a truthy base URL overrides; an explicit valid env mode wins. -/
def loadFromEnvironment (penv : ProcEnv) : Mem0Cfg.Mem0Config :=
  let c1 :=
    match penv.MEM0_API_KEY with
    | some k =>
      if !k.isEmpty then
        { Mem0Cfg.DEFAULT_CONFIG with apiKey := some k, mode := "hosted" }
      else Mem0Cfg.DEFAULT_CONFIG
    | none => Mem0Cfg.DEFAULT_CONFIG
  let c2 :=
    match penv.MEM0_BASE_URL with
    | some u => if !u.isEmpty then { c1 with baseUrl := some u } else c1
    | none => c1
  match penv.MEM0_MODE with
  | some m =>
    if !m.isEmpty && (m == "local" || m == "hosted") then { c2 with mode := m } else c2
  | none => c2

/-- `configureMem0` (client.ts lines 37-56): create the manager when
absent (reading `process.env`), apply the updates, then raise
`Mem0InvalidApiKeyError` when the result is enabled but invalid in
hosted mode with a bad key.  `initializeLocalMode` is launched without
`await`, so its failures never raise here; its effect on the globals is
not needed by the claims below and is not modelled. -/
def configureMem0 (penv : ProcEnv) (mgr : Option Mem0Cfg.Mem0Config)
    (options : Mem0Cfg.ConfigUpdates) : Except Mem0ErrorModel Mem0Cfg.Mem0Config :=
  let cfg := Mem0Cfg.updateConfig (mgr.getD (loadFromEnvironment penv)) options
  if options.enabled.getD false && !Mem0Cfg.isValidConfiguration cfg then
    if cfg.mode == "hosted" && !Mem0Cfg.isValidApiKey cfg.apiKey then
      .error (.invalidApiKey cfg.apiKey)
    else .ok cfg
  else .ok cfg

end Mem0Client

/-- C6: when the service is not ready (feature disabled, configuration
invalid, or never configured), each of the six dual-mode operations
returns its null/false/error sentinel without issuing any network,
embedder or vector-store call. -/
theorem c6_not_ready_silent_noop (g : Mem0Client.Mem0Globals) (env : Mem0Client.Mem0Env)
    (query user_id agent_id memory_id : String)
    (messages : List Mem0Client.MessageModel)
    (metadata : Option (List (String × String))) (limit : Option Nat)
    (h : Mem0Client.isServiceReady g = false) :
    ((Mem0Client.search_memories g env query user_id agent_id).value = none ∧
      (Mem0Client.search_memories g env query user_id agent_id).calls = []) ∧
    ((Mem0Client.store_memory g env messages user_id agent_id metadata).value = false ∧
      (Mem0Client.store_memory g env messages user_id agent_id metadata).calls = []) ∧
    ((Mem0Client.get_memory g env memory_id).value = none ∧
      (Mem0Client.get_memory g env memory_id).calls = []) ∧
    ((Mem0Client.delete_memory g env memory_id).value = false ∧
      (Mem0Client.delete_memory g env memory_id).calls = []) ∧
    ((Mem0Client.list_memories g env user_id agent_id limit).value = none ∧
      (Mem0Client.list_memories g env user_id agent_id limit).calls = []) ∧
    ((Mem0Client.health_check g env).value.status = "error" ∧
      (Mem0Client.health_check g env).calls = []) := by
  refine ⟨⟨?_, ?_⟩, ⟨?_, ?_⟩, ⟨?_, ?_⟩, ⟨?_, ?_⟩, ⟨?_, ?_⟩, ?_, ?_⟩
  · simp [Mem0Client.search_memories, h]
  · simp [Mem0Client.search_memories, h]
  · simp [Mem0Client.store_memory, h]
  · simp [Mem0Client.store_memory, h]
  · simp [Mem0Client.get_memory, h]
  · simp [Mem0Client.get_memory, h]
  · simp [Mem0Client.delete_memory, h]
  · simp [Mem0Client.delete_memory, h]
  · simp [Mem0Client.list_memories, h]
  · simp [Mem0Client.list_memories, h]
  · cases hcm : g.configManager with
    | none => simp [Mem0Client.health_check, hcm]
    | some cfg => simp [Mem0Client.health_check, hcm, h]
  · cases hcm : g.configManager with
    | none => simp [Mem0Client.health_check, hcm]
    | some cfg => simp [Mem0Client.health_check, hcm, h]

/-- The C6 witness globals: configuration `{enabled: false}` over the
default local config. -/
def gDisabledC6 : Mem0Client.Mem0Globals :=
  { configManager := some
      { enabled := false, mode := "local", baseUrl := some "http://localhost:4321"
        apiKey := none, qdrantCollection := none }
    qdrantClient := none
    embedder := false }

/-- An environment whose every call would succeed — the point of the
witness is that none of them is made. -/
def envStub : Mem0Client.Mem0Env :=
  { http := fun _ _ => .ok .null
    createEmbeddings := fun _ => .ok []
    qdrantQuery := .ok []
    qdrantUpsert := .ok ()
    qdrantRetrieve := .ok []
    qdrantDeletePoints := .ok ()
    qdrantScroll := .ok []
    qdrantGetCollections := .ok ()
    nowIso := "2024-01-01T00:00:00Z"
    freshId := "mem_1" }

/-- Witness for C6: with `{enabled: false}`, `search_memories` returns
`null` and issues no call. -/
theorem c6_not_ready_silent_noop_witness :
    (Mem0Client.search_memories gDisabledC6 envStub "query" "user" "agent").value = none ∧
    (Mem0Client.search_memories gDisabledC6 envStub "query" "user" "agent").calls = [] :=
  (c6_not_ready_silent_noop gDisabledC6 envStub "query" "user" "agent" "mem_1" [] none none
    rfl).1

theorem stringAppend_assoc (a b c : String) : (a ++ b) ++ c = a ++ (b ++ c) := by
  apply String.toList_inj.mp
  rw [stringToList_append, stringToList_append, stringToList_append, stringToList_append,
    List.append_assoc]

/-- Every line produced by `formatMem0Error` carries the structured
`[Mem0 CODE] message` shape: it is `"[Mem0 "` followed by the code, the
closing bracket and the message. -/
theorem formatMem0Error_structured (e : Mem0Client.Mem0ErrorModel) :
    ∃ rest, Mem0Client.formatMem0Error e = "[Mem0 " ++ rest := by
  refine ⟨Mem0Client.errorCode e ++ ("] " ++ Mem0Client.errorMessage e), ?_⟩
  rw [Mem0Client.formatMem0Error, stringAppend_assoc, stringAppend_assoc]

/-- The C7 counterexample globals: local mode, ready, with a Qdrant
client and an embedder. -/
def gLocalC7 : Mem0Client.Mem0Globals :=
  { configManager := some
      { enabled := true, mode := "local", baseUrl := some "http://localhost:4321"
        apiKey := none, qdrantCollection := none }
    qdrantClient := some (Qdrant.mkMem0QdrantClient "mem0_memories")
    embedder := true }

/-- The C7 counterexample environment: the embedder succeeds, the Qdrant
query fails. -/
def envC7fail : Mem0Client.Mem0Env :=
  { envStub with
    createEmbeddings := fun _ => .ok [[0.1]]
    qdrantQuery := .error "boom" }

/-- C7 counterexample: a local-mode Qdrant failure inside
`search_memories` is converted to the `null` sentinel, but it is caught
inside the local helper — not at the operation boundary — and its two log
lines are the plain adapter/helper messages, neither of which has the
structured `"[Mem0 CODE] message"` shape (every such line starts with
`"[Mem0 "`, cf. `formatMem0Error_structured`). -/
theorem c7_local_logging_counterexample :
    (Mem0Client.search_memories gLocalC7 envC7fail "q" "u" "a").value = none ∧
    (Mem0Client.search_memories gLocalC7 envC7fail "q" "u" "a").logs =
      ["Failed to search memories: boom", "[Mem0] Local search failed: boom"] ∧
    (¬ ∃ rest, "Failed to search memories: boom" = "[Mem0 " ++ rest) ∧
    (¬ ∃ rest, "[Mem0] Local search failed: boom" = "[Mem0 " ++ rest) := by
  refine ⟨rfl, rfl, ?_, ?_⟩
  · rintro ⟨rest, h⟩
    have h2 : "Failed to search memories: boom".toList.take 6 =
        ("[Mem0 ".toList ++ rest.toList).take 6 := by
      rw [← stringToList_append, ← h]
    rw [List.take_left' (by rfl)] at h2
    exact absurd h2 (by decide)
  · rintro ⟨rest, h⟩
    have h2 : "[Mem0] Local search failed: boom".toList.take 6 =
        ("[Mem0 ".toList ++ rest.toList).take 6 := by
      rw [← stringToList_append, ← h]
    rw [List.take_left' (by rfl)] at h2
    exact absurd h2 (by decide)

/-- C7 (amended): runtime failures never escape the client's public
surface, but only the hosted path logs them with the structured
`[Mem0 CODE] message` prefix at the operation boundary.  Hosted-mode HTTP
and transport failures are caught at the boundary, logged once via
`formatMem0Error`, and converted to the operation's sentinel.  Local-mode
embedding and Qdrant failures are caught inside the local helpers (or
inside the Qdrant adapter) with plain log lines and likewise yield the
sentinel — except `delete_memory`, which returns true on a swallowed
Qdrant delete failure.  Only the pre-flight API-key-format check of
`configureMem0` raises to the caller. -/
theorem c7_error_containment_amended
    (g : Mem0Client.Mem0Globals) (env : Mem0Client.Mem0Env) (cfg : Mem0Cfg.Mem0Config)
    (query user_id agent_id memory_id : String)
    (messages : List Mem0Client.MessageModel)
    (metadata : Option (List (String × String))) (limit : Option Nat)
    (hg : g.configManager = some cfg) (hready : Mem0Client.isServiceReady g = true) :
    (cfg.mode = "hosted" → Mem0Cfg.isValidApiKey cfg.apiKey = true →
      (∀ e calls, Mem0Client.makeRequest cfg env "POST" "/search" = (.error e, calls) →
        Mem0Client.search_memories g env query user_id agent_id =
          ⟨none, calls, [Mem0Client.formatMem0Error e]⟩) ∧
      (∀ e calls, Mem0Client.makeRequest cfg env "POST" "/memories" = (.error e, calls) →
        Mem0Client.store_memory g env messages user_id agent_id metadata =
          ⟨false, calls, [Mem0Client.formatMem0Error e]⟩) ∧
      (∀ e calls,
        Mem0Client.makeRequest cfg env "GET" ("/memories/" ++ memory_id) = (.error e, calls) →
        Mem0Client.get_memory g env memory_id =
          ⟨none, calls, [Mem0Client.formatMem0Error e]⟩) ∧
      (∀ e calls,
        Mem0Client.makeRequest cfg env "DELETE" ("/memories/" ++ memory_id) =
          (.error e, calls) →
        Mem0Client.delete_memory g env memory_id =
          ⟨false, calls, [Mem0Client.formatMem0Error e]⟩) ∧
      (∀ e calls,
        Mem0Client.makeRequest cfg env "GET"
            (Mem0Client.listEndpoint user_id agent_id limit) = (.error e, calls) →
        Mem0Client.list_memories g env user_id agent_id limit =
          ⟨none, calls, [Mem0Client.formatMem0Error e]⟩) ∧
      (∀ e calls, Mem0Client.makeRequest cfg env "GET" "/health" = (.error e, calls) →
        Mem0Client.health_check g env =
          ⟨⟨"error", "unknown"⟩, calls, [Mem0Client.formatMem0Error e]⟩)) ∧
    (cfg.mode ≠ "hosted" → g.qdrantClient.isSome = true → g.embedder = true →
      (∀ msg, env.createEmbeddings [query] = .err msg →
        (Mem0Client.search_memories g env query user_id agent_id).value = none) ∧
      (∀ msg, env.qdrantQuery = .error msg →
        (Mem0Client.search_memories g env query user_id agent_id).value = none) ∧
      (∀ v vs msg,
        env.createEmbeddings [Mem0Client.joinedContent messages] = .ok (v :: vs) →
        env.qdrantUpsert = .error msg →
        (Mem0Client.store_memory g env messages user_id agent_id metadata).value = false) ∧
      (∀ msg, env.qdrantRetrieve = .error msg →
        (Mem0Client.get_memory g env memory_id).value = none) ∧
      (∀ msg, env.qdrantScroll = .error msg →
        (Mem0Client.list_memories g env user_id agent_id limit).value = none) ∧
      (∀ msg, env.qdrantDeletePoints = .error msg →
        (Mem0Client.delete_memory g env memory_id).value = true) ∧
      (∀ msg, env.qdrantGetCollections = .error msg →
        (Mem0Client.health_check g env).value.status = "error")) ∧
    (∀ penv mgr options,
      options.enabled = some true →
      (Mem0Cfg.updateConfig ((mgr : Option Mem0Cfg.Mem0Config).getD
          (Mem0Client.loadFromEnvironment penv)) options).mode = "hosted" →
      Mem0Cfg.isValidApiKey (Mem0Cfg.updateConfig (mgr.getD
          (Mem0Client.loadFromEnvironment penv)) options).apiKey = false →
      Mem0Client.configureMem0 penv mgr options =
        .error (.invalidApiKey (Mem0Cfg.updateConfig (mgr.getD
          (Mem0Client.loadFromEnvironment penv)) options).apiKey)) := by
  refine ⟨?_, ?_, ?_⟩
  · intro hm hk
    refine ⟨?_, ?_, ?_, ?_, ?_, ?_⟩ <;> intro e calls hmk
    · simp [Mem0Client.search_memories, hready, hg, hm, hk, hmk]
    · simp [Mem0Client.store_memory, hready, hg, hm, hk, hmk]
    · simp [Mem0Client.get_memory, hready, hg, hm, hk, hmk]
    · simp [Mem0Client.delete_memory, hready, hg, hm, hk, hmk]
    · simp [Mem0Client.list_memories, hready, hg, hm, hk, hmk]
    · simp [Mem0Client.health_check, hready, hg, hm, hk, hmk]
  · intro hm hqc hemb
    obtain ⟨qc, hqc⟩ := Option.isSome_iff_exists.mp hqc
    have hmf : (cfg.mode == "hosted") = false := beq_eq_false_iff_ne.mpr hm
    refine ⟨?_, ?_, ?_, ?_, ?_, ?_, ?_⟩
    · intro msg hce
      simp [Mem0Client.search_memories, hready, hg, hmf,
        Mem0Client.searchMemoriesLocal, hqc, hemb, hce]
    · intro msg hq
      cases hce : env.createEmbeddings [query] with
      | err m =>
        simp [Mem0Client.search_memories, hready, hg, hmf,
          Mem0Client.searchMemoriesLocal, hqc, hemb, hce]
      | ok embs =>
        cases embs with
        | nil =>
          simp [Mem0Client.search_memories, hready, hg, hmf,
            Mem0Client.searchMemoriesLocal, hqc, hemb, hce]
        | cons v vs =>
          simp [Mem0Client.search_memories, hready, hg, hmf,
            Mem0Client.searchMemoriesLocal, hqc, hemb, hce,
            Mem0Client.clientSearchMemories, hq]
    · intro v vs msg hce hq
      by_cases hlen : (v.length != qc.vectorSize) = true
      · simp [Mem0Client.store_memory, hready, hg, hmf, Mem0Client.storeMemoryLocal,
          hqc, hemb, hce, Mem0Client.clientStoreMemory, hlen]
      · have hlen' : (v.length != qc.vectorSize) = false := by
          cases hb : (v.length != qc.vectorSize) with
          | true => exact absurd hb hlen
          | false => rfl
        simp [Mem0Client.store_memory, hready, hg, hmf, Mem0Client.storeMemoryLocal,
          hqc, hemb, hce, Mem0Client.clientStoreMemory, hlen', hq]
    · intro msg hr
      simp [Mem0Client.get_memory, hready, hg, hmf,
        Mem0Client.getMemoryLocal, hqc, Mem0Client.clientGetMemory, hr]
    · intro msg hs
      simp [Mem0Client.list_memories, hready, hg, hmf,
        Mem0Client.listMemoriesLocal, hqc, Mem0Client.clientListMemories, hs]
    · intro msg hd
      simp [Mem0Client.delete_memory, hready, hg, hmf,
        Mem0Client.deleteMemoryLocal, hqc, Mem0Client.clientDeleteMemory, hd]
    · intro msg hh
      simp [Mem0Client.health_check, hready, hg, hmf, hqc,
        Mem0Client.clientHealthCheck, hh]
  · intro penv mgr options hen hmode hkey
    have hvc : Mem0Cfg.isValidConfiguration
        (Mem0Cfg.updateConfig (mgr.getD (Mem0Client.loadFromEnvironment penv)) options) =
          false := by
      unfold Mem0Cfg.isValidConfiguration
      rw [hmode]
      cases htr : truthyOptS
          (Mem0Cfg.updateConfig (mgr.getD (Mem0Client.loadFromEnvironment penv))
            options).baseUrl <;>
        simp [hkey]
    simp [Mem0Client.configureMem0, hen, hvc, hmode, hkey]

/-- A well-formed hosted API key for the C7 witness. -/
def validHostedKey : String := "mem0-abcdefghijklmnopqrstuvwxyz1234567890ABCDEFGHIJKLMNOP"

/-- The C7 witness config: enabled hosted mode with a valid key. -/
def cfgHostedC7 : Mem0Cfg.Mem0Config :=
  { enabled := true, mode := "hosted", baseUrl := some "http://localhost:4321"
    apiKey := some validHostedKey, qdrantCollection := none }

/-- The C7 witness globals. -/
def gHostedC7 : Mem0Client.Mem0Globals :=
  { configManager := some cfgHostedC7, qdrantClient := none, embedder := false }

/-- The C7 witness environment: every HTTP request comes back with
status 500. -/
def envHttpFailC7 : Mem0Client.Mem0Env :=
  { envStub with http := fun _ _ => .httpStatus 500 "boom" }

/-- Witness for the amended C7: a hosted 500 response to
`search_memories` is converted to the `null` sentinel after exactly one
HTTP call and one structured `[Mem0 API_ERROR] ...` log line. -/
theorem c7_error_containment_amended_witness :
    Mem0Client.search_memories gHostedC7 envHttpFailC7 "q" "u" "a" =
      ⟨none, [.http "POST" "/search"],
        [Mem0Client.formatMem0Error (.api "API request failed: boom" (some 500))]⟩ :=
  ((c7_error_containment_amended gHostedC7 envHttpFailC7 cfgHostedC7 "q" "u" "a" "m1" []
      none none rfl rfl).1 rfl rfl).1
    (.api "API request failed: boom" (some 500)) [.http "POST" "/search"] (by rfl)
